import Mathlib

/-!
Shallow embedding of the paginated, quota-aware YouTube channel harvesting
engine of `src/youtube_scraper.py` (class `YouTubeScraper`) together with the
multi-channel driver of `src/app.py` (`scrape_channels`).

Modelling conventions:
* Timestamps (`published_at`, the `published_after` floor) are integers; the
  source compares ISO-8601 UTC strings, whose lexicographic order coincides
  with chronological order, so integer comparison is an order-faithful model.
* The remote playlist source is modelled as the flat upload stream
  `PlaylistEnv.items`; a request with page token `pos` and page size `n`
  serves `(items.drop pos).take n` and reports a next page token exactly when
  items remain.  The search source is a stream per date floor
  (`SearchEnv.results`), since `publishedAfter` is sent server-side.
* A transport/platform exception on the k-th listing call is modelled by
  `listFail k = true`; an exception inside the per-page `videos().list` call
  by `statsFail k = true`.  Python's `try ... except` wrappers are modelled
  by the `errored` flag and the wrapper functions that return `[]` / the
  empty mapping exactly where the source's `except` branches do.
* `quota_used` is a natural number; the source's float test
  `quota_used > max_quota * 0.8` with the hard-coded `max_quota = 10000`
  (where `10000 * 0.8` is the exact double `8000.0`) is the integer test
  `10 * quota_used > 8 * max_quota`.
-/

/-- One entry of a listing page (`item['snippet']` fields used by the code). -/
structure PlaylistItem where
  video_id : String
  title : String
  description : String
  published_at : Int
  channel_id : String
  thumbnail_url : String
deriving Repr, DecidableEq

/-- Statistics for one video as built by `get_video_statistics`. -/
structure StatRecord where
  view_count : Nat
  like_count : Nat
  comment_count : Nat
  duration : String
deriving Repr, DecidableEq

/-- A merged video record (`video_info` dict in the source). -/
structure VideoInfo where
  video_id : String
  title : String
  description : String
  published_at : Int
  channel_id : String
  thumbnail_url : String
  view_count : Nat
  like_count : Nat
  comment_count : Nat
  duration : String
deriving Repr, DecidableEq

/-- A video record after `scrape_channel` attaches the channel fields. -/
structure HarvestedVideo extends VideoInfo where
  channel_name : String
  channel_subscriber_count : Nat
deriving Repr, DecidableEq

/-- `self.max_quota = 10000  # Daily quota limit` (fixed in `__init__`). -/
def maxQuota : Nat := 10000

/-- The pagination loops' budget check `self.quota_used > self.max_quota * 0.8`
(strict; `10000 * 0.8` is exactly `8000.0`). -/
def quota_exceeds_threshold (q : Nat) : Bool := decide (8 * maxQuota < 10 * q)

/-- Chunking recursion, structural on a fuel that bounds the list length
(each step consumes at least one element, so `l.length` steps suffice). -/
def chunksOf50Go : Nat → List String → List (List String)
  | _, [] => []
  | 0, _ :: _ => []
  | fuel + 1, a :: rest => (a :: rest.take 49) :: chunksOf50Go fuel (rest.drop 49)

/-- `for i in range(0, len(video_ids), 50): chunk = video_ids[i:i+50]` —
the consecutive ≤50-element chunks of the id list. -/
def chunksOf50 (l : List String) : List (List String) :=
  chunksOf50Go l.length l

/-- `video_stats[video_id] = {...}` — dictionary insertion (last write wins). -/
def updateStat (m : String → Option StatRecord) (kv : String × StatRecord) :
    String → Option StatRecord :=
  fun x => if x = kv.1 then some kv.2 else m x

/-- Insert all key/value pairs of one chunk response into the mapping. -/
def insertStats (m : String → Option StatRecord) (items : List (String × StatRecord)) :
    String → Option StatRecord :=
  items.foldl updateStat m

/-- Result of `get_video_statistics`: the mapping, the quota charged while it
ran, and whether the `except` branch was taken. -/
structure StatsOutcome where
  stats : String → Option StatRecord
  charged : Nat
  errored : Bool

/-- The chunk loop of `get_video_statistics`: one bulk `videos().list` call per
chunk (`fetch idx c`), `quota_used += 1` after each successful call; an
exception anywhere makes the surrounding `except` return the empty dict `{}`
(discarding the mapping built so far, keeping the quota already charged). -/
def statsLoop (fetch : Nat → List String → Except Unit (List (String × StatRecord))) :
    List (List String) → Nat → (String → Option StatRecord) → Nat → StatsOutcome
  | [], _, m, q => ⟨m, q, false⟩
  | c :: rest, idx, m, q =>
    match fetch idx c with
    | .error _ => ⟨fun _ => none, q, true⟩
    | .ok items => statsLoop fetch rest (idx + 1) (insertStats m items) (q + 1)

/-- `get_video_statistics(video_ids)`: chunk the ids by 50 and run the loop,
starting from the empty dict. -/
def get_video_statistics
    (fetch : Nat → List String → Except Unit (List (String × StatRecord)))
    (video_ids : List String) : StatsOutcome :=
  statsLoop fetch (chunksOf50 video_ids) 0 (fun _ => none) 0

/-- `description[:500]` — Python slices by character; `List.take` on the
character data models it exactly. -/
def truncate500 (s : String) : String :=
  String.mk (s.data.take 500)

/-- Build one merged `video_info` dict: listing fields (description truncated
to 500 characters), then `update(video_stats[video_id])` when present, else
the default zero counts and `'Unknown'` duration.  The playlist loop passes
`item['snippet']['channelId']` as `cid`; the search loop passes its
`channel_id` argument. -/
def mergeVideo (cid : String) (item : PlaylistItem)
    (stats : String → Option StatRecord) : VideoInfo :=
  match stats item.video_id with
  | some s =>
    { video_id := item.video_id, title := item.title,
      description := truncate500 item.description,
      published_at := item.published_at, channel_id := cid,
      thumbnail_url := item.thumbnail_url,
      view_count := s.view_count, like_count := s.like_count,
      comment_count := s.comment_count, duration := s.duration }
  | none =>
    { video_id := item.video_id, title := item.title,
      description := truncate500 item.description,
      published_at := item.published_at, channel_id := cid,
      thumbnail_url := item.thumbnail_url,
      view_count := 0, like_count := 0, comment_count := 0,
      duration := "Unknown" }

/-- Python truthiness of the `max_videos` argument (`if max_videos:`):
`None` and `0` are falsy. -/
def optTruthy : Option Nat → Bool
  | none => false
  | some m => decide (m ≠ 0)

/-- The client-side date filter of the playlist loop:
`if video_date >= published_after` (keep everything when no floor is set). -/
def keepByFloor (pa : Option Int) (it : PlaylistItem) : Bool :=
  match pa with
  | none => true
  | some f => decide (f ≤ it.published_at)

/-- The remote playlist source and failure schedules for one harvest run. -/
structure PlaylistEnv where
  items : List PlaylistItem
  listFail : Nat → Bool
  statsOf : String → Option StatRecord
  statsFail : Nat → Bool

/-- State returned by a pagination loop body: the accumulated `videos` local,
the scraper's `quota_used`, the trace of `maxResults` values sent, and
whether an exception escaped the loop into the surrounding `except`. -/
structure LoopResult where
  acc : List VideoInfo
  quota : Nat
  requests : List Nat
  errored : Bool
deriving Repr

/-- The per-page statistics fetch the walkers hand to `get_video_statistics`:
the platform answers with the stats it has for the requested ids, or raises
when `statsFail` is set for this page. -/
def pageStatsFetch (statsOf : String → Option StatRecord) (fails : Bool) :
    Nat → List String → Except Unit (List (String × StatRecord)) :=
  fun _ c =>
    if fails then .error ()
    else .ok (c.filterMap fun i => (statsOf i).map fun s => (i, s))

/-- The `while True:` pagination loop of `get_videos_from_playlist`, lines
204-293 of `src/youtube_scraper.py`.  `pos` is the page cursor, `callIdx`
counts listing calls, `acc`/`quota`/`reqs` are the mutable locals.  Fuel only
bounds the recursion; every reachable path terminates within
`items.length + 1` iterations. -/
def playlistLoop (env : PlaylistEnv) (batch_size : Nat) (pa : Option Int)
    (mv : Option Nat) :
    Nat → Nat → Nat → List VideoInfo → Nat → List Nat → LoopResult
  | 0, _, _, acc, quota, reqs => ⟨acc, quota, reqs, false⟩
  | fuel + 1, pos, callIdx, acc, quota, reqs =>
    -- `if max_videos and len(videos) >= max_videos: break`
    if optTruthy mv && decide (mv.getD 0 ≤ acc.length) then ⟨acc, quota, reqs, false⟩
    else
      -- `current_batch_size = min(batch_size, 50)`, reduced to the remaining
      -- count when `max_videos` is truthy
      let base := min batch_size 50
      let current := if optTruthy mv then min base (mv.getD 0 - acc.length) else base
      let reqs' := reqs ++ [current]
      if env.listFail callIdx then ⟨acc, quota, reqs', true⟩
      else
        let page := (env.items.drop pos).take current
        let quota1 := quota + 1
        if page.isEmpty then ⟨acc, quota1, reqs', false⟩
        else
          let filtered := page.filter (keepByFloor pa)
          if filtered.isEmpty then
            -- only reachable with a date floor (no floor keeps the whole
            -- nonempty page); `continue` re-enters the loop unchanged
            if pa.isSome then ⟨acc, quota1, reqs', false⟩
            else playlistLoop env batch_size pa mv fuel pos (callIdx + 1) acc quota1 reqs'
          else
            let ids := filtered.map (fun it => it.video_id)
            let sres := get_video_statistics
              (pageStatsFetch env.statsOf (env.statsFail callIdx)) ids
            let batch := filtered.map (fun it => mergeVideo it.channel_id it sres.stats)
            let acc' := acc ++ batch
            let quota2 := quota1 + sres.charged
            let pos' := pos + page.length
            if decide (env.items.length ≤ pos') then ⟨acc', quota2, reqs', false⟩
            else if quota_exceeds_threshold quota2 then ⟨acc', quota2, reqs', false⟩
            else playlistLoop env batch_size pa mv fuel pos' (callIdx + 1) acc' quota2 reqs'

/-- Result of one harvest call: `videos` is the Python return value, `quota`
the final `quota_used`, `accAtStop` the `videos` local at the moment the loop
stopped (what the `except` handler saw when `errored`). -/
structure PlaylistResult where
  videos : List VideoInfo
  quota : Nat
  requests : List Nat
  errored : Bool
  accAtStop : List VideoInfo
deriving Repr

/-- `get_videos_from_playlist(playlist_id, batch_size, published_after,
max_videos)` with starting quota `q0`: run the loop; the surrounding
`except Exception: return []` turns any raised error into the empty list. -/
def get_videos_from_playlist (env : PlaylistEnv) (batch_size : Nat)
    (pa : Option Int) (mv : Option Nat) (q0 : Nat) : PlaylistResult :=
  let r := playlistLoop env batch_size pa mv (env.items.length + 1) 0 0 [] q0 []
  ⟨if r.errored then [] else r.acc, r.quota, r.requests, r.errored, r.acc⟩

/-- The search-based fallback source: the stream served for a given
`publishedAfter` floor (the floor is sent with every request, so the platform
filters server-side), plus failure schedules. -/
structure SearchEnv where
  results : Option Int → List PlaylistItem
  listFail : Nat → Bool
  statsOf : String → Option StatRecord
  statsFail : Nat → Bool

/-- The fallback `while True:` search pagination loop of `get_channel_videos`,
lines 88-170 of `src/youtube_scraper.py`.  Identical control flow to the
playlist loop except: search costs 100 units per page, the date floor is
applied server-side (no client filter), and `channel_id` is taken from the
argument rather than the item. -/
def searchLoop (env : SearchEnv) (channel_id : String) (batch_size : Nat)
    (pa : Option Int) (mv : Option Nat) :
    Nat → Nat → Nat → List VideoInfo → Nat → List Nat → LoopResult
  | 0, _, _, acc, quota, reqs => ⟨acc, quota, reqs, false⟩
  | fuel + 1, pos, callIdx, acc, quota, reqs =>
    if optTruthy mv && decide (mv.getD 0 ≤ acc.length) then ⟨acc, quota, reqs, false⟩
    else
      let base := min batch_size 50
      let current := if optTruthy mv then min base (mv.getD 0 - acc.length) else base
      let reqs' := reqs ++ [current]
      if env.listFail callIdx then ⟨acc, quota, reqs', true⟩
      else
        let stream := env.results pa
        let page := (stream.drop pos).take current
        let quota1 := quota + 100
        if page.isEmpty then ⟨acc, quota1, reqs', false⟩
        else
          let ids := page.map (fun it => it.video_id)
          let sres := get_video_statistics
            (pageStatsFetch env.statsOf (env.statsFail callIdx)) ids
          let batch := page.map (fun it => mergeVideo channel_id it sres.stats)
          let acc' := acc ++ batch
          let quota2 := quota1 + sres.charged
          let pos' := pos + page.length
          if decide (stream.length ≤ pos') then ⟨acc', quota2, reqs', false⟩
          else if quota_exceeds_threshold quota2 then ⟨acc', quota2, reqs', false⟩
          else searchLoop env channel_id batch_size pa mv fuel pos' (callIdx + 1) acc' quota2 reqs'

/-- The search fallback path of `get_channel_videos`, wrapped by the same
`except Exception: return []`. -/
def search_channel_videos (env : SearchEnv) (channel_id : String)
    (batch_size : Nat) (pa : Option Int) (mv : Option Nat) (q0 : Nat) :
    PlaylistResult :=
  let r := searchLoop env channel_id batch_size pa mv
    ((env.results pa).length + 1) 0 0 [] q0 []
  ⟨if r.errored then [] else r.acc, r.quota, r.requests, r.errored, r.acc⟩

/-- `published_after = (utcnow() - timedelta(days=days_back)).isoformat()` —
guarded by `if days_back and days_back > 0:` (Python truthiness, so `None`,
`0` and negative values leave the floor unset). -/
def publishedAfterFloor (now : Int) (days_back : Option Int) : Option Int :=
  match days_back with
  | none => none
  | some d => if 0 < d then some (now - d) else none

/-- `get_channel_videos(channel_id, batch_size, days_back, max_videos)`:
compute the date floor, then use the uploads-playlist path when the uploads
playlist id resolved (`uploads = some env`), else the search fallback. -/
def get_channel_videos (now : Int) (uploads : Option PlaylistEnv)
    (senv : SearchEnv) (channel_id : String) (batch_size : Nat)
    (days_back : Option Int) (mv : Option Nat) (q0 : Nat) : PlaylistResult :=
  let pa := publishedAfterFloor now days_back
  match uploads with
  | some penv => get_videos_from_playlist penv batch_size pa mv q0
  | none => search_channel_videos senv channel_id batch_size pa mv q0

/-- Channel-level info fetched once by `get_channel_info`. -/
structure ChannelInfo where
  channel_name : String
  subscriber_count : Nat
deriving Repr, DecidableEq

/-- `video['channel_name'] = ...; video['channel_subscriber_count'] = ...` -/
def attachChannel (ci : ChannelInfo) (v : VideoInfo) : HarvestedVideo :=
  { toVideoInfo := v, channel_name := ci.channel_name,
    channel_subscriber_count := ci.subscriber_count }

/-- `scrape_channel`: fetch channel info (`none` aborts with `[]`), harvest
the videos, and attach the channel fields to every record. -/
def scrape_channel (now : Int) (info : Option ChannelInfo)
    (uploads : Option PlaylistEnv) (senv : SearchEnv) (channel_id : String)
    (batch_size : Nat) (days_back : Option Int) (mv : Option Nat) (q0 : Nat) :
    List HarvestedVideo :=
  match info with
  | none => []
  | some ci =>
    ((get_channel_videos now uploads senv channel_id batch_size days_back mv q0).videos).map
      (attachChannel ci)

/-- The successful remote calls a `YouTubeScraper` instance can make; each one
is followed by a `self.quota_used += weight` at the cited source line. -/
inductive ScraperOp where
  | searchChannelName   -- `get_channel_id_from_name`, `+= 100` (line 29)
  | channelInfo         -- `get_channel_info`, `+= 1` (line 49)
  | uploadsPlaylistId   -- `get_uploads_playlist_id`, `+= 1` (line 186)
  | searchPage          -- search pagination page, `+= 100` (line 111)
  | playlistPage        -- `playlistItems().list` page, `+= 1` (line 220)
  | statsChunk          -- `videos().list` chunk, `+= 1` (line 315)
deriving Repr, DecidableEq

/-- The quota weight each operation adds. -/
def opCost : ScraperOp → Nat
  | .searchChannelName => 100
  | .channelInfo => 1
  | .uploadsPlaylistId => 1
  | .searchPage => 100
  | .playlistPage => 1
  | .statsChunk => 1

/-- The scraper's quota fields, set in `__init__`: `quota_used = 0`,
`max_quota = 10000`. -/
structure ScraperState where
  quota_used : Nat
  max_quota : Nat
deriving Repr, DecidableEq

/-- `self.quota_used += opCost op` — no operation writes `max_quota`. -/
def chargeOp (s : ScraperState) (op : ScraperOp) : ScraperState :=
  { s with quota_used := s.quota_used + opCost op }

/-- Apply a sequence of scraper operations. -/
def runOps (s : ScraperState) (ops : List ScraperOp) : ScraperState :=
  ops.foldl chargeOp s

/-- `get_quota_usage`: report `(used, limit)` (the percentage field of the
source is used/limit as a display value and carries no extra information). -/
def get_quota_usage (s : ScraperState) : Nat × Nat :=
  (s.quota_used, s.max_quota)

/-- Aggregate state of the multi-channel driver: the `all_scraped_data` list
and the channels for which `st.error` recorded a failure. -/
structure MultiResult where
  videos : List HarvestedVideo
  failed : List String
deriving Repr, DecidableEq

/-- The per-channel loop of `scrape_channels` in `src/app.py` (lines 254-298):
each channel's body runs inside `try ... except`; a failed resolution
(`channel_id` falsy) is recorded and skipped with `continue`; an exception
from the harvest is recorded and the loop moves on; a successful harvest's
records are appended to the aggregate. -/
def scrape_channels (resolve : String → Option String)
    (harvest : String → Except Unit (List HarvestedVideo)) :
    List String → MultiResult
  | [] => ⟨[], []⟩
  | ch :: rest =>
    let r := scrape_channels resolve harvest rest
    match resolve ch with
    | none => ⟨r.videos, ch :: r.failed⟩
    | some cid =>
      match harvest cid with
      | .error _ => ⟨r.videos, ch :: r.failed⟩
      | .ok data => ⟨data ++ r.videos, r.failed⟩

/-- The outcome the driver's loop body reaches for one channel: `none` when
the channel is recorded as failed, `some videos` otherwise. -/
def channelOutcome (resolve : String → Option String)
    (harvest : String → Except Unit (List HarvestedVideo)) (ch : String) :
    Option (List HarvestedVideo) :=
  (resolve ch).bind fun cid => (harvest cid).toOption


/-! ### Supporting lemmas -/

theorem mergeVideo_video_id (cid : String) (it : PlaylistItem)
    (st : String → Option StatRecord) :
    (mergeVideo cid it st).video_id = it.video_id := by
  unfold mergeVideo
  split <;> rfl

theorem mergeVideo_published_at (cid : String) (it : PlaylistItem)
    (st : String → Option StatRecord) :
    (mergeVideo cid it st).published_at = it.published_at := by
  unfold mergeVideo
  split <;> rfl

theorem chunksOf50Go_flatten :
    ∀ (fuel : Nat) (l : List String), l.length ≤ fuel →
      (chunksOf50Go fuel l).flatten = l := by
  intro fuel
  induction fuel with
  | zero =>
    intro l h
    cases l with
    | nil => rfl
    | cons a rest => simp at h
  | succ n ih =>
    intro l h
    cases l with
    | nil => rfl
    | cons a rest =>
      have hlen : (rest.drop 49).length ≤ n := by
        simp only [List.length_drop]
        simp only [List.length_cons] at h
        omega
      simp only [chunksOf50Go, List.flatten_cons, ih _ hlen, List.cons_append]
      congr 1
      exact List.take_append_drop 49 rest

theorem chunksOf50_flatten (l : List String) : (chunksOf50 l).flatten = l :=
  chunksOf50Go_flatten l.length l le_rfl

theorem chunksOf50Go_sizes :
    ∀ (fuel : Nat) (l : List String) (c : List String),
      c ∈ chunksOf50Go fuel l → c.length ≤ 50 := by
  intro fuel
  induction fuel with
  | zero =>
    intro l c hc
    cases l <;> simp [chunksOf50Go] at hc
  | succ n ih =>
    intro l c hc
    cases l with
    | nil => simp [chunksOf50Go] at hc
    | cons a rest =>
      simp only [chunksOf50Go, List.mem_cons] at hc
      rcases hc with h | h
      · subst h
        simp only [List.length_cons, List.length_take]
        omega
      · exact ih _ _ h

theorem chunksOf50_sizes (l : List String) (c : List String)
    (hc : c ∈ chunksOf50 l) : c.length ≤ 50 :=
  chunksOf50Go_sizes l.length l c hc

theorem statsLoop_charged_of_ok
    (fetch : Nat → List String → Except Unit (List (String × StatRecord))) :
    ∀ (chunks : List (List String)) (idx : Nat) (m : String → Option StatRecord) (q : Nat),
      (statsLoop fetch chunks idx m q).errored = false →
      (statsLoop fetch chunks idx m q).charged = q + chunks.length := by
  intro chunks
  induction chunks with
  | nil => intro idx m q _; rfl
  | cons c rest ih =>
    intro idx m q h
    simp only [statsLoop] at h ⊢
    cases hf : fetch idx c with
    | error e => simp [hf] at h
    | ok items =>
      simp only [hf] at h ⊢
      rw [ih _ _ _ h]
      simp only [List.length_cons]
      omega

theorem statsLoop_stats_of_errored
    (fetch : Nat → List String → Except Unit (List (String × StatRecord))) :
    ∀ (chunks : List (List String)) (idx : Nat) (m : String → Option StatRecord) (q : Nat),
      (statsLoop fetch chunks idx m q).errored = true →
      ∀ x, (statsLoop fetch chunks idx m q).stats x = none := by
  intro chunks
  induction chunks with
  | nil => intro idx m q h; simp [statsLoop] at h
  | cons c rest ih =>
    intro idx m q h x
    simp only [statsLoop] at h ⊢
    cases hf : fetch idx c with
    | error e => simp [hf]
    | ok items =>
      simp only [hf] at h ⊢
      exact ih _ _ _ h x

set_option maxHeartbeats 1000000 in
theorem playlistLoop_quota_mono (env : PlaylistEnv) (bs : Nat) (pa : Option Int)
    (mv : Option Nat) :
    ∀ (fuel pos ci : Nat) (acc : List VideoInfo) (q : Nat) (reqs : List Nat),
      q ≤ (playlistLoop env bs pa mv fuel pos ci acc q reqs).quota := by
  intro fuel
  induction fuel with
  | zero => intro pos ci acc q reqs; exact le_rfl
  | succ n ih =>
    intro pos ci acc q reqs
    simp only [playlistLoop]
    repeat' split
    all_goals first
      | exact le_rfl
      | (refine le_trans ?_ (ih _ _ _ _ _); omega)
      | (dsimp only; omega)

set_option maxHeartbeats 1000000 in
theorem playlistLoop_not_errored (env : PlaylistEnv) (bs : Nat) (pa : Option Int)
    (mv : Option Nat) (hfail : ∀ k, env.listFail k = false) :
    ∀ (fuel pos ci : Nat) (acc : List VideoInfo) (q : Nat) (reqs : List Nat),
      (playlistLoop env bs pa mv fuel pos ci acc q reqs).errored = false := by
  intro fuel
  induction fuel with
  | zero => intro pos ci acc q reqs; rfl
  | succ n ih =>
    intro pos ci acc q reqs
    simp only [playlistLoop]
    repeat' split
    all_goals first
      | rfl
      | exact ih _ _ _ _ _
      | simp_all

set_option maxHeartbeats 1000000 in
theorem playlistLoop_length_le (env : PlaylistEnv) (bs : Nat) (pa : Option Int)
    (m : Nat) (hm : m ≠ 0) :
    ∀ (fuel pos ci : Nat) (acc : List VideoInfo) (q : Nat) (reqs : List Nat),
      acc.length ≤ m →
      (playlistLoop env bs pa (some m) fuel pos ci acc q reqs).acc.length ≤ m := by
  have htr : optTruthy (some m) = true := by simp [optTruthy, hm]
  intro fuel
  induction fuel with
  | zero => intro pos ci acc q reqs h; exact h
  | succ n ih =>
    intro pos ci acc q reqs h
    simp only [playlistLoop]
    split
    · exact h
    · rename_i hceil
      have hb : ∀ s : StatsOutcome,
          (acc ++ (((env.items.drop pos).take
              (min (min bs 50) ((some m : Option Nat).getD 0 - acc.length))).filter
            (keepByFloor pa)).map
              (fun it => mergeVideo it.channel_id it s.stats)).length ≤ m := by
        have hlt : acc.length < m := by
          simp only [optTruthy, Option.getD_some, Bool.and_eq_true, decide_eq_true_eq] at hceil
          by_contra hcon
          exact hceil ⟨hm, by omega⟩
        intro s
        have h1 : ((((env.items.drop pos).take
            (min (min bs 50) ((some m : Option Nat).getD 0 - acc.length))).filter
            (keepByFloor pa))).length ≤ min (min bs 50) (m - acc.length) := by
          calc ((((env.items.drop pos).take
              (min (min bs 50) ((some m : Option Nat).getD 0 - acc.length))).filter
              (keepByFloor pa))).length
              ≤ (((env.items.drop pos).take
                (min (min bs 50) ((some m : Option Nat).getD 0 - acc.length)))).length :=
                List.length_filter_le _ _
            _ ≤ min (min bs 50) (m - acc.length) := by
                rw [List.length_take]; simp only [Option.getD_some]; omega
        simp only [List.length_append, List.length_map]
        omega
      repeat' split
      all_goals first
        | exact h
        | exact hb _
        | exact ih _ _ _ _ _ (hb _)
        | exact ih _ _ _ _ _ h

set_option maxHeartbeats 1000000 in
theorem searchLoop_length_le (env : SearchEnv) (cid : String) (bs : Nat)
    (pa : Option Int) (m : Nat) (hm : m ≠ 0) :
    ∀ (fuel pos ci : Nat) (acc : List VideoInfo) (q : Nat) (reqs : List Nat),
      acc.length ≤ m →
      (searchLoop env cid bs pa (some m) fuel pos ci acc q reqs).acc.length ≤ m := by
  have htr : optTruthy (some m) = true := by simp [optTruthy, hm]
  intro fuel
  induction fuel with
  | zero => intro pos ci acc q reqs h; exact h
  | succ n ih =>
    intro pos ci acc q reqs h
    simp only [searchLoop]
    split
    · exact h
    · rename_i hceil
      have hb : ∀ s : StatsOutcome,
          (acc ++ (((env.results pa).drop pos).take
              (min (min bs 50) ((some m : Option Nat).getD 0 - acc.length))).map
              (fun it => mergeVideo cid it s.stats)).length ≤ m := by
        have hlt : acc.length < m := by
          simp only [optTruthy, Option.getD_some, Bool.and_eq_true, decide_eq_true_eq] at hceil
          by_contra hcon
          exact hceil ⟨hm, by omega⟩
        intro s
        have h1 : ((((env.results pa).drop pos).take
            (min (min bs 50) ((some m : Option Nat).getD 0 - acc.length)))).length
            ≤ min (min bs 50) (m - acc.length) := by
          rw [List.length_take]; simp only [Option.getD_some]; omega
        simp only [List.length_append, List.length_map]
        omega
      repeat' split
      all_goals first
        | exact h
        | exact hb _
        | exact ih _ _ _ _ _ (hb _)

theorem filter_keepByFloor_none (l : List PlaylistItem) :
    l.filter (keepByFloor none) = l := by
  induction l with
  | nil => rfl
  | cons a t ih => simp [List.filter_cons, keepByFloor, ih]

theorem take_take_length {α : Type} (l : List α) (n : Nat) :
    l.take ((l.take n).length) = l.take n := by
  rw [List.length_take]
  rcases le_total n l.length with h | h
  · rw [min_eq_left h]
  · rw [min_eq_right h, List.take_length, List.take_of_length_le h]

set_option maxHeartbeats 1000000 in
theorem playlistLoop_ids_prefix (env : PlaylistEnv) (bs : Nat) (mv : Option Nat) :
    ∀ (fuel pos ci : Nat) (acc : List VideoInfo) (q : Nat) (reqs : List Nat),
      acc.map (fun v => v.video_id) = (env.items.take pos).map (fun it => it.video_id) →
      ∃ k, (playlistLoop env bs none mv fuel pos ci acc q reqs).acc.map (fun v => v.video_id)
        = (env.items.take k).map (fun it => it.video_id) := by
  intro fuel
  induction fuel with
  | zero => intro pos ci acc q reqs h; exact ⟨pos, h⟩
  | succ n ih =>
    intro pos ci acc q reqs h
    simp only [playlistLoop, filter_keepByFloor_none]
    have hstep : ∀ (cur : Nat) (s : StatsOutcome),
        (acc ++ ((env.items.drop pos).take cur).map
          (fun it => mergeVideo it.channel_id it s.stats)).map (fun v => v.video_id)
        = (env.items.take (pos + ((env.items.drop pos).take cur).length)).map
            (fun it => it.video_id) := by
      intro cur s
      rw [List.map_append, h, List.take_add, List.map_append, take_take_length]
      congr 1
      rw [List.map_map]
      refine List.map_congr_left ?_
      intro a _
      simp only [Function.comp_apply, mergeVideo_video_id]
    repeat' split
    all_goals first
      | exact ⟨pos, h⟩
      | exact ⟨_, hstep _ _⟩
      | exact ih _ _ _ _ _ (hstep _ _)

set_option maxHeartbeats 1000000 in
theorem searchLoop_floor (env : SearchEnv) (cid : String) (bs : Nat) (f : Int)
    (mv : Option Nat)
    (hsrc : ∀ it ∈ env.results (some f), f ≤ it.published_at) :
    ∀ (fuel pos ci : Nat) (acc : List VideoInfo) (q : Nat) (reqs : List Nat),
      (∀ v ∈ acc, f ≤ v.published_at) →
      ∀ v ∈ (searchLoop env cid bs (some f) mv fuel pos ci acc q reqs).acc,
        f ≤ v.published_at := by
  intro fuel
  induction fuel with
  | zero => intro pos ci acc q reqs h; exact h
  | succ n ih =>
    intro pos ci acc q reqs h
    simp only [searchLoop]
    have hstep : ∀ (cur : Nat) (s : StatsOutcome),
        ∀ v ∈ acc ++ (((env.results (some f)).drop pos).take cur).map
          (fun it => mergeVideo cid it s.stats), f ≤ v.published_at := by
      intro cur s v hv
      rcases List.mem_append.mp hv with hv | hv
      · exact h v hv
      · rcases List.mem_map.mp hv with ⟨it, hit, rfl⟩
        rw [mergeVideo_published_at]
        exact hsrc it (List.drop_subset _ _ (List.take_subset _ _ hit))
    repeat' split
    all_goals first
      | exact h
      | exact hstep _ _
      | exact ih _ _ _ _ _ (hstep _ _)

theorem mem_append_singleton {r c : Nat} {rs : List Nat} (h : r ∈ rs ++ [c]) :
    r ∈ rs ∨ r = c := by
  rcases List.mem_append.mp h with h | h
  · exact Or.inl h
  · exact Or.inr (List.mem_singleton.mp h)

set_option maxHeartbeats 1000000 in
theorem playlistLoop_requests_le (env : PlaylistEnv) (bs : Nat) (pa : Option Int)
    (mv : Option Nat) :
    ∀ (fuel pos ci : Nat) (acc : List VideoInfo) (q : Nat) (reqs : List Nat),
      (∀ r ∈ reqs, r ≤ min bs 50) →
      ∀ r ∈ (playlistLoop env bs pa mv fuel pos ci acc q reqs).requests,
        r ≤ min bs 50 := by
  intro fuel
  induction fuel with
  | zero => intro pos ci acc q reqs h; exact h
  | succ n ih =>
    intro pos ci acc q reqs h
    simp only [playlistLoop]
    have hext : ∀ cur : Nat, cur ≤ min bs 50 →
        ∀ r ∈ reqs ++ [cur], r ≤ min bs 50 := by
      intro cur hc r hr
      rcases mem_append_singleton hr with hx | hx
      · exact h r hx
      · omega
    repeat' split
    all_goals first
      | exact h
      | exact hext _ (min_le_left _ _)
      | exact hext _ le_rfl
      | exact ih _ _ _ _ _ (hext _ (min_le_left _ _))
      | exact ih _ _ _ _ _ (hext _ le_rfl)

set_option maxHeartbeats 1000000 in
theorem searchLoop_requests_le (env : SearchEnv) (cid : String) (bs : Nat)
    (pa : Option Int) (mv : Option Nat) :
    ∀ (fuel pos ci : Nat) (acc : List VideoInfo) (q : Nat) (reqs : List Nat),
      (∀ r ∈ reqs, r ≤ min bs 50) →
      ∀ r ∈ (searchLoop env cid bs pa mv fuel pos ci acc q reqs).requests,
        r ≤ min bs 50 := by
  intro fuel
  induction fuel with
  | zero => intro pos ci acc q reqs h; exact h
  | succ n ih =>
    intro pos ci acc q reqs h
    simp only [searchLoop]
    have hext : ∀ cur : Nat, cur ≤ min bs 50 →
        ∀ r ∈ reqs ++ [cur], r ≤ min bs 50 := by
      intro cur hc r hr
      rcases mem_append_singleton hr with hx | hx
      · exact h r hx
      · omega
    repeat' split
    all_goals first
      | exact h
      | exact hext _ (min_le_left _ _)
      | exact hext _ le_rfl
      | exact ih _ _ _ _ _ (hext _ (min_le_left _ _))
      | exact ih _ _ _ _ _ (hext _ le_rfl)


set_option maxHeartbeats 1000000 in
theorem playlistLoop_requests_eq_of_none (env : PlaylistEnv) (bs : Nat)
    (pa : Option Int) :
    ∀ (fuel pos ci : Nat) (acc : List VideoInfo) (q : Nat) (reqs : List Nat),
      (∀ r ∈ reqs, r = min bs 50) →
      ∀ r ∈ (playlistLoop env bs pa none fuel pos ci acc q reqs).requests,
        r = min bs 50 := by
  intro fuel
  induction fuel with
  | zero => intro pos ci acc q reqs h; exact h
  | succ n ih =>
    intro pos ci acc q reqs h
    simp only [playlistLoop, optTruthy, Bool.false_and, Bool.false_eq_true, if_false]
    have hext : ∀ cur : Nat, cur = min bs 50 →
        ∀ r ∈ reqs ++ [cur], r = min bs 50 := by
      intro cur hc r hr
      rcases mem_append_singleton hr with hx | hx
      · exact h r hx
      · omega
    repeat' split
    all_goals first
      | exact h
      | exact hext _ rfl
      | exact ih _ _ _ _ _ (hext _ rfl)

/-! ### Concrete fixtures used by counterexamples and witnesses -/

/-- A listing item with the given id and publish time. -/
def sampleItem (id : String) (t : Int) : PlaylistItem :=
  ⟨id, "t" ++ id, "d", t, "chan", "u"⟩

/-- A failure schedule under which no remote call raises. -/
def noFail : Nat → Bool := fun _ => false

/-- A statistics source that has no statistics for any id. -/
def noStats : String → Option StatRecord := fun _ => none

/-- A search source with no results for any floor. -/
def emptySearchEnv : SearchEnv := ⟨fun _ => [], noFail, noStats, noFail⟩

/-- A playlist whose first and third entries carry the same `item_id`
("the platform returns the same item_id on two different pages" once the
page size is 2). -/
def dupEnv : PlaylistEnv :=
  ⟨[sampleItem "dup" 10, sampleItem "b" 9, sampleItem "dup" 8],
   noFail, noStats, noFail⟩

/-- A playlist holding a single video. -/
def oneItemEnv : PlaylistEnv := ⟨[sampleItem "a" 10], noFail, noStats, noFail⟩

/-- A three-video playlist with no failures. -/
def threeItemEnv : PlaylistEnv :=
  ⟨[sampleItem "a" 10, sampleItem "b" 9, sampleItem "c" 8],
   noFail, noStats, noFail⟩

/-- A three-video playlist whose second listing call raises a transport
error (`listFail 1 = true`). -/
def failPage2Env : PlaylistEnv :=
  ⟨[sampleItem "a" 10, sampleItem "b" 9, sampleItem "c" 8],
   fun k => k == 1, noStats, noFail⟩

/-- A sample statistics record. -/
def statSample : StatRecord := ⟨5, 1, 0, "PT1M"⟩

/-- 51 video ids: they split into one full chunk of 50 and one of 1. -/
def idsFiftyOne : List String := List.replicate 50 "a" ++ ["b"]

/-- A statistics platform that answers the first bulk call with a record for
"a" and raises on the second call. -/
def fetchFailSecond : Nat → List String → Except Unit (List (String × StatRecord)) :=
  fun idx _ => if idx = 0 then .ok [("a", statSample)] else .error ()

/-- A search source honouring the server-side floor `70`: it serves one item
published at `80`. -/
def floorSearchEnv : SearchEnv :=
  ⟨fun pa => if pa == some 70 then [sampleItem "w" 80] else [],
   noFail, noStats, noFail⟩

/-- The single record the floored search harvest produces. -/
def floorVideo : VideoInfo := mergeVideo "cid" (sampleItem "w" 80) (fun _ => none)

/-- Resolver for the two-channel example: "A" fails to resolve, "B" maps to
its platform id. -/
def abResolve : String → Option String :=
  fun ch => if ch = "B" then some "BID" else none

/-- The harvested video of channel "B" in the two-channel example. -/
def sampleHarvested : HarvestedVideo :=
  ⟨⟨"vb", "tb", "db", 5, "BID", "ub", 1, 2, 3, "PT2M"⟩, "ChannelB", 42⟩

/-- Harvest for the two-channel example: every resolved channel yields one
video. -/
def abHarvest : String → Except Unit (List HarvestedVideo) :=
  fun _ => .ok [sampleHarvested]

/-! ### Claims -/

/-- C1, counterexample: the claim says every `item_id` appears at most once
in a harvest call's merged output.  With page size 2, `dupEnv` serves the id
"dup" on two different pages, and the final merged output of
`get_videos_from_playlist` contains it twice: nothing in the source
deduplicates before handing the list to storage. -/
theorem claim_C1_counterexample :
    1 < ((get_videos_from_playlist dupEnv 2 none none 0).videos.map
      (fun v => v.video_id)).count "dup" := by decide

/-- C1, amended: the harvest output is the per-page merges concatenated with
no deduplication — with no date floor the output's `item_id` sequence is
exactly a prefix of the playlist stream's id sequence, so an id served on two
pages appears once per occurrence (deduplication happens only in the storage
layers' upsert, not in the harvest call). -/
theorem claim_C1_amended (env : PlaylistEnv) (bs : Nat) (mv : Option Nat) (q0 : Nat) :
    ∃ k, (get_videos_from_playlist env bs none mv q0).videos.map (fun v => v.video_id)
      = (env.items.take k).map (fun it => it.video_id) := by
  unfold get_videos_from_playlist
  dsimp only
  split
  · exact ⟨0, rfl⟩
  · exact playlistLoop_ids_prefix env bs mv (env.items.length + 1) 0 0 [] q0 [] (by simp)

/-- C2, counterexample: the claim says `max_videos = 0` bounds the output by
0; but `if max_videos and ...` treats `0` as falsy, so `max_videos = 0` means
*unlimited* and a one-video playlist yields one video, not zero. -/
theorem claim_C2_counterexample :
    ¬ ((get_channel_videos 0 (some oneItemEnv) emptySearchEnv "c" 50 none
        (some 0) 0).videos.length ≤ 0) := by decide

/-- C2, amended: for every *positive* `max_videos` the harvest returns at
most `max_videos` records (on both the playlist and the search path, and
through `scrape_channel`); `max_videos = 0` behaves like `None` (unlimited)
because of Python truthiness. -/
theorem claim_C2_amended (now : Int) (uploads : Option PlaylistEnv)
    (senv : SearchEnv) (cid : String) (bs : Nat) (db : Option Int) (q0 : Nat)
    (m : Nat) (info : Option ChannelInfo) (hm : 0 < m) :
    (get_channel_videos now uploads senv cid bs db (some m) q0).videos.length ≤ m
    ∧ (scrape_channel now info uploads senv cid bs db (some m) q0).length ≤ m := by
  have hm0 : m ≠ 0 := by omega
  have h1 : (get_channel_videos now uploads senv cid bs db (some m) q0).videos.length ≤ m := by
    unfold get_channel_videos
    cases uploads with
    | some penv =>
      unfold get_videos_from_playlist
      dsimp only
      split
      · simp
      · exact playlistLoop_length_le penv bs _ m hm0 _ _ _ _ _ _ (by simp)
    | none =>
      unfold search_channel_videos
      dsimp only
      split
      · simp
      · exact searchLoop_length_le senv cid bs _ m hm0 _ _ _ _ _ _ (by simp)
  refine ⟨h1, ?_⟩
  unfold scrape_channel
  cases info with
  | none => simp
  | some ci => simpa using h1

/-- C2, witness: with a three-video playlist and `max_videos = 2` the output
has at most 2 records. -/
theorem claim_C2_witness :
    (get_channel_videos 0 (some threeItemEnv) emptySearchEnv "c" 50 none
      (some 2) 0).videos.length ≤ 2 :=
  (claim_C2_amended 0 (some threeItemEnv) emptySearchEnv "c" 50 none 0 2 none
    (by decide)).1

/-- C3, counterexample: the claim says the budget check fires exactly when
`used >= limit * 0.8`; at `used = 8000` (exactly 80% of the fixed
`max_quota = 10000`) the source's strict `>` comparison does *not* fire. -/
theorem claim_C3_counterexample :
    8 * maxQuota ≤ 10 * 8000 ∧ quota_exceeds_threshold 8000 = false := by decide

/-- C3, amended: the pagination loops' budget check fires exactly when
`used > limit * 0.8` (strictly above 80% of the budget), and once it fires it
stays fired under any further charges (the counter never decreases within a
scraper instance). -/
theorem claim_C3_amended :
    (∀ q, quota_exceeds_threshold q = true ↔ 8 * maxQuota < 10 * q)
    ∧ (∀ q q', q ≤ q' → quota_exceeds_threshold q = true →
        quota_exceeds_threshold q' = true) := by
  constructor
  · intro q
    simp [quota_exceeds_threshold]
  · intro q q' hle h
    simp only [quota_exceeds_threshold, decide_eq_true_eq] at h ⊢
    omega

/-- C3, witness: the check fires at 8500 used units and still fires after
charging up to 9000. -/
theorem claim_C3_witness : quota_exceeds_threshold 9000 = true :=
  claim_C3_amended.2 8500 9000 (by decide) (by decide)

/-- C4, counterexample: the claim says a transport error mid-pagination still
yields the records accumulated before the error.  With `failPage2Env` the
first page merges 2 records (visible in `accAtStop`), the second listing call
raises, and `except Exception: return []` discards them: the call returns the
empty list. -/
theorem claim_C4_counterexample :
    (get_videos_from_playlist failPage2Env 2 none none 0).accAtStop.length = 2
    ∧ (get_videos_from_playlist failPage2Env 2 none none 0).videos = [] := by
  exact ⟨by decide, by decide⟩

/-- C4, amended: budget exhaustion and the item-count ceiling do return
everything accumulated (whenever no listing call raises, the returned list is
exactly the accumulated one, for any statistics-fetch failures — a statistics
error only zeroes that page's counts); but a raised listing error makes the
call return the empty list, discarding the accumulated records. -/
theorem claim_C4_amended (env : PlaylistEnv) (bs : Nat) (pa : Option Int)
    (mv : Option Nat) (q0 : Nat) :
    ((∀ k, env.listFail k = false) →
      (get_videos_from_playlist env bs pa mv q0).videos
        = (get_videos_from_playlist env bs pa mv q0).accAtStop)
    ∧ ((get_videos_from_playlist env bs pa mv q0).errored = true →
      (get_videos_from_playlist env bs pa mv q0).videos = []) := by
  constructor
  · intro hfail
    unfold get_videos_from_playlist
    dsimp only
    rw [playlistLoop_not_errored env bs pa mv hfail]
    simp
  · intro he
    unfold get_videos_from_playlist at he ⊢
    dsimp only at he ⊢
    rw [he]
    simp

/-- C4, witness: with no listing failures the returned list is the
accumulated list. -/
theorem claim_C4_witness :
    (get_videos_from_playlist threeItemEnv 2 none none 0).videos
      = (get_videos_from_playlist threeItemEnv 2 none none 0).accAtStop :=
  (claim_C4_amended threeItemEnv 2 none none 0).1 (fun _ => rfl)

/-- C5, counterexample: the claim says a failing chunk returns the mapping
built from the chunks completed before the error.  With 51 ids, chunk 1
succeeds and returns a record for "a", chunk 2 raises — and the source's
`except Exception: return {}` discards chunk 1's mapping entirely: the lookup
for "a" yields nothing. -/
theorem claim_C5_counterexample :
    fetchFailSecond 0 ((chunksOf50 idsFiftyOne).headD []) = .ok [("a", statSample)]
    ∧ (get_video_statistics fetchFailSecond idsFiftyOne).errored = true
    ∧ (get_video_statistics fetchFailSecond idsFiftyOne).stats "a" = none :=
  ⟨rfl, rfl, rfl⟩

/-- C5, amended: `get_video_statistics` splits the ids into consecutive
chunks of at most 50 (the chunks concatenate back to the input), issues one
bulk lookup per chunk charging one quota unit each (so a fully successful run
charges exactly the number of chunks), and merges the results into one
mapping; on a transport or platform error it never raises and never retries,
but it returns the *empty* mapping — the chunks completed before the error
are discarded, not returned. -/
theorem claim_C5_amended
    (fetch : Nat → List String → Except Unit (List (String × StatRecord)))
    (ids : List String) :
    (chunksOf50 ids).flatten = ids
    ∧ (∀ c ∈ chunksOf50 ids, c.length ≤ 50)
    ∧ ((get_video_statistics fetch ids).errored = false →
        (get_video_statistics fetch ids).charged = (chunksOf50 ids).length)
    ∧ ((get_video_statistics fetch ids).errored = true →
        ∀ x, (get_video_statistics fetch ids).stats x = none) := by
  refine ⟨chunksOf50_flatten ids, chunksOf50_sizes ids, ?_, ?_⟩
  · intro h
    have hc := statsLoop_charged_of_ok fetch (chunksOf50 ids) 0 (fun _ => none) 0 h
    simpa using hc
  · intro h
    exact statsLoop_stats_of_errored fetch (chunksOf50 ids) 0 (fun _ => none) 0 h

/-- C5, witness: a successful single-chunk run charges one unit; an errored
run has an empty mapping. -/
theorem claim_C5_witness :
    (get_video_statistics (fun _ _ => Except.ok ([] : List (String × StatRecord)))
      ["a"]).charged = (chunksOf50 ["a"]).length
    ∧ (get_video_statistics fetchFailSecond idsFiftyOne).stats "q" = none :=
  ⟨(claim_C5_amended (fun _ _ => Except.ok []) ["a"]).2.2.1 rfl,
   (claim_C5_amended fetchFailSecond idsFiftyOne).2.2.2 rfl "q"⟩

/-- C6, counterexample: the claim (following the spec) says a record whose id
is absent from the statistics mapping carries the duration `"unknown"`; the
source's default is the capitalized string `'Unknown'`. -/
theorem claim_C6_counterexample :
    (mergeVideo "c" (sampleItem "x" 5) noStats).duration = "Unknown"
    ∧ (mergeVideo "c" (sampleItem "x" 5) noStats).duration ≠ "unknown" := by
  exact ⟨rfl, by decide⟩

/-- C6, amended: for every item id absent from the statistics mapping the
merged record is produced without error and carries the defaults
`view_count = 0`, `like_count = 0`, `comment_count = 0` and the duration
string `"Unknown"` (capitalized, unlike the spec's `"unknown"`). -/
theorem claim_C6_amended (cid : String) (item : PlaylistItem)
    (stats : String → Option StatRecord) (h : stats item.video_id = none) :
    (mergeVideo cid item stats).view_count = 0
    ∧ (mergeVideo cid item stats).like_count = 0
    ∧ (mergeVideo cid item stats).comment_count = 0
    ∧ (mergeVideo cid item stats).duration = "Unknown" := by
  unfold mergeVideo
  rw [h]
  exact ⟨rfl, rfl, rfl, rfl⟩

/-- C6, witness: the defaults at a concrete item with no statistics. -/
theorem claim_C6_witness :
    (mergeVideo "chan" (sampleItem "y" 3) noStats).view_count = 0
    ∧ (mergeVideo "chan" (sampleItem "y" 3) noStats).like_count = 0
    ∧ (mergeVideo "chan" (sampleItem "y" 3) noStats).comment_count = 0
    ∧ (mergeVideo "chan" (sampleItem "y" 3) noStats).duration = "Unknown" :=
  claim_C6_amended "chan" (sampleItem "y" 3) noStats rfl

/-- C7: the quota counter is monotone — every successful remote call adds a
positive weight, no operation decreases `quota_used`, `max_quota` is fixed at
construction and never modified, and the pagination loop only ever raises the
counter it starts from. -/
theorem claim_C7 :
    (∀ (s : ScraperState) (ops : List ScraperOp),
      s.quota_used ≤ (runOps s ops).quota_used
      ∧ (runOps s ops).max_quota = s.max_quota)
    ∧ (∀ op, 0 < opCost op)
    ∧ (∀ (env : PlaylistEnv) (bs : Nat) (pa : Option Int) (mv : Option Nat) (q0 : Nat),
      q0 ≤ (get_videos_from_playlist env bs pa mv q0).quota) := by
  refine ⟨?_, ?_, ?_⟩
  · intro s ops
    induction ops generalizing s with
    | nil => exact ⟨le_rfl, rfl⟩
    | cons op rest ih =>
      have h := ih (chargeOp s op)
      refine ⟨le_trans ?_ h.1, h.2⟩
      simp [chargeOp]
  · intro op
    cases op <;> decide
  · intro env bs pa mv q0
    unfold get_videos_from_playlist
    exact playlistLoop_quota_mono env bs pa mv (env.items.length + 1) 0 0 [] q0 []

/-- C8: multi-channel isolation in `scrape_channels` — the aggregate output is
exactly the concatenation of the successfully harvested channels' videos, the
failed list is exactly the channels whose resolution or harvest failed, the
call is total (no exception escapes), and on the spec's example
`["A", "B"]` with "A" unresolvable the result is B's videos with "A" marked
failed. -/
theorem claim_C8 (resolve : String → Option String)
    (harvest : String → Except Unit (List HarvestedVideo))
    (channels : List String) :
    (scrape_channels resolve harvest channels).videos
      = (channels.filterMap (channelOutcome resolve harvest)).flatten
    ∧ (scrape_channels resolve harvest channels).failed
      = channels.filter (fun ch => (channelOutcome resolve harvest ch).isNone)
    ∧ (scrape_channels abResolve abHarvest ["A", "B"]).videos = [sampleHarvested]
    ∧ (scrape_channels abResolve abHarvest ["A", "B"]).failed = ["A"] := by
  refine ⟨?_, ?_, by decide, by decide⟩
  · induction channels with
    | nil => rfl
    | cons ch rest ih =>
      unfold scrape_channels
      cases hres : resolve ch with
      | none => simp [channelOutcome, hres, ih]
      | some cid =>
        cases hh : harvest cid with
        | error e => simp [channelOutcome, hres, hh, Except.toOption, ih]
        | ok data => simp [channelOutcome, hres, hh, Except.toOption, ih]
  · induction channels with
    | nil => rfl
    | cons ch rest ih =>
      unfold scrape_channels
      cases hres : resolve ch with
      | none => simp [channelOutcome, hres, ih]
      | some cid =>
        cases hh : harvest cid with
        | error e => simp [channelOutcome, hres, hh, Except.toOption, ih]
        | ok data => simp [channelOutcome, hres, hh, Except.toOption, ih]

/-- C9: `days_back` unset or `0` yields no publish-date floor; a positive
`days_back` yields the floor `now - days_back`; and on the search (fallback)
path — where the floor is sent server-side with every request — every
returned record's `published_at` is at least the floor whenever the platform
honours the filter. -/
theorem claim_C9 :
    (∀ now : Int, publishedAfterFloor now none = none
      ∧ publishedAfterFloor now (some 0) = none
      ∧ ∀ d : Int, 0 < d → publishedAfterFloor now (some d) = some (now - d))
    ∧ (∀ (now : Int) (senv : SearchEnv) (cid : String) (bs : Nat) (d : Int)
        (mv : Option Nat) (q0 : Nat), 0 < d →
        (∀ it ∈ senv.results (some (now - d)), now - d ≤ it.published_at) →
        ∀ v ∈ (get_channel_videos now none senv cid bs (some d) mv q0).videos,
          now - d ≤ v.published_at) := by
  constructor
  · intro now
    refine ⟨rfl, by simp [publishedAfterFloor], ?_⟩
    intro d hd
    simp [publishedAfterFloor, hd]
  · intro now senv cid bs d mv q0 hd hsrc v hv
    have hfloor : publishedAfterFloor now (some d) = some (now - d) := by
      simp [publishedAfterFloor, hd]
    unfold get_channel_videos at hv
    rw [hfloor] at hv
    unfold search_channel_videos at hv
    dsimp only at hv
    by_cases he : (searchLoop senv cid bs (some (now - d)) mv
        ((senv.results (some (now - d))).length + 1) 0 0 [] q0 []).errored = true
    · rw [if_pos he] at hv
      exact absurd hv (List.not_mem_nil v)
    · rw [if_neg he] at hv
      exact searchLoop_floor senv cid bs (now - d) mv hsrc _ _ _ _ _ _
        (fun v0 hv0 => absurd hv0 (List.not_mem_nil v0)) v hv

/-- C9, witness: with `now = 100`, `days_back = 30` and a source serving one
item published at 80 under the floor 70, the returned record respects the
floor. -/
theorem claim_C9_witness : (100 - 30 : Int) ≤ floorVideo.published_at :=
  claim_C9.2 100 floorSearchEnv "cid" 50 30 none 0 (by decide) (by decide)
    floorVideo (by decide)

/-- C10: every listing request sent during pagination asks for at most 50
items, on both the playlist path and the search path, for every
`batch_size` (including over-limit values) — and when `max_videos` is unset
every request asks for exactly `min batch_size 50`. -/
theorem claim_C10 :
    (∀ (env : PlaylistEnv) (bs : Nat) (pa : Option Int) (mv : Option Nat) (q0 : Nat),
      ∀ r ∈ (get_videos_from_playlist env bs pa mv q0).requests, r ≤ 50)
    ∧ (∀ (senv : SearchEnv) (cid : String) (bs : Nat) (pa : Option Int)
        (mv : Option Nat) (q0 : Nat),
      ∀ r ∈ (search_channel_videos senv cid bs pa mv q0).requests, r ≤ 50)
    ∧ (∀ (env : PlaylistEnv) (bs : Nat) (pa : Option Int) (q0 : Nat),
      ∀ r ∈ (get_videos_from_playlist env bs pa none q0).requests,
        r = min bs 50) := by
  refine ⟨?_, ?_, ?_⟩
  · intro env bs pa mv q0 r hr
    unfold get_videos_from_playlist at hr
    dsimp only at hr
    have hb := playlistLoop_requests_le env bs pa mv (env.items.length + 1) 0 0 [] q0 []
      (fun r0 h0 => absurd h0 (List.not_mem_nil r0)) r hr
    exact le_trans hb (min_le_right bs 50)
  · intro senv cid bs pa mv q0 r hr
    unfold search_channel_videos at hr
    dsimp only at hr
    have hb := searchLoop_requests_le senv cid bs pa mv
      ((senv.results pa).length + 1) 0 0 [] q0 []
      (fun r0 h0 => absurd h0 (List.not_mem_nil r0)) r hr
    exact le_trans hb (min_le_right bs 50)
  · intro env bs pa q0 r hr
    unfold get_videos_from_playlist at hr
    dsimp only at hr
    exact playlistLoop_requests_eq_of_none env bs pa (env.items.length + 1) 0 0 [] q0 []
      (fun r0 h0 => absurd h0 (List.not_mem_nil r0)) r hr

/-- C10, witness: with page size 2 on the three-item playlist, the value 2 is
among the sent request sizes and is within the platform limit. -/
theorem claim_C10_witness : (2 : Nat) ≤ 50 :=
  claim_C10.1 threeItemEnv 2 none none 0 2 (by decide)
